import Mathlib

/-!
Shallow embedding of the callback scheduling and aggregation engine of the
`callpyback` repository (`src/callpyback/basics/`): the execution policies
(`scheduling.py`), the callback registry (`callbacklist.py`), the reduction
aggregators (`reduction.py`) and the delegation directory
(`callbackhandler.py`).  Python dictionaries are modelled as association
lists in insertion order, Python exceptions as values of an explicit
exception type carrying a kind (the Python class) and a message, and
stateful objects as explicit state records threaded through the operations.
-/

namespace CallPyBack

/-- Keyword-argument values passed to callbacks (opaque to the engine; the
engine only moves them around, so integers suffice). -/
abbrev Val := Int

/-- A Python keyword-argument dictionary: association list in insertion
order, keys unique in well-formed inputs. -/
abbrev Kwargs := List (String × Val)

/-- The Python exception class of a raised exception, used by `isinstance`
checks against a policy's configured exception tuple. -/
inductive ExcKind where
  | runtimeError
  | valueError
  | keyError
  | typeError
  deriving DecidableEq, Repr

/-- A raised Python exception: its class and its message. -/
structure Exc where
  kind : ExcKind
  msg : String
  deriving DecidableEq, Repr

/-- A registered callable together with what the engine introspects about
it: an identity (Python object identity, used by set membership), its
`__name__`, its formal parameter names (`inspect.signature(cb).parameters`),
whether `inspect.iscoroutinefunction` holds, and its behaviour when invoked
with a keyword-argument dictionary (returning normally or raising; return
values are discarded by every policy, so the result type is `Unit`). -/
structure Callback where
  id : Nat
  name : String
  params : List String
  isCoroutine : Bool
  body : Kwargs → Except Exc Unit

/-- An invocation trace: which callback (by identity) was invoked with
which filtered keyword arguments, in order. -/
abbrev Trace := List (Nat × Kwargs)

/-- `get_callback_kwargs(callback, kwargs)` from `scheduling.py`: the dict
comprehension keeping exactly the entries of `kwargs` whose key occurs in
the callback's signature parameters, preserving dictionary order. -/
def get_callback_kwargs (callback : Callback) (kwargs : Kwargs) : Kwargs :=
  kwargs.filter (fun kv => callback.params.contains kv.1)

/-- The abstract `Policy` interface of `scheduling.py`: configured
exception allow-list (`self.exceptions`) and tracer (`self.tracer`), plus
the abstract methods `prepare_callbacks`, `_set_trace_profiler`, `_start`
and `_join` implemented by each concrete policy over its own state type
`σ`.  `startI`/`joinI` return the updated state, the trace of callback
invocations they performed, and either normal return or a raised
exception. -/
structure PolicyImpl (σ : Type) where
  exceptions : σ → Option (List ExcKind)
  tracer : σ → Option String
  prepare_callbacks : σ → List Callback → Kwargs → σ
  set_trace_profiler : σ → Option String → σ
  startI : σ → σ × Trace × Except Exc Unit
  joinI : σ → σ × Trace × Except Exc Unit

/-- The concrete template method `Policy.start` of `scheduling.py`: when an
exception allow-list is configured it installs the profiler, runs `_start`,
and if an exception matching the allow-list escapes it removes the profiler
before re-raising; an exception not matching the allow-list propagates
without the removal.  Without an allow-list it installs the profiler and
runs `_start` directly. -/
def policyStart {σ : Type} (P : PolicyImpl σ) (s : σ) : σ × Trace × Except Exc Unit :=
  match P.exceptions s with
  | some allow =>
    let s1 := P.set_trace_profiler s (P.tracer s)
    match P.startI s1 with
    | (s2, tr, Except.ok _) => (s2, tr, Except.ok ())
    | (s2, tr, Except.error e) =>
      if allow.contains e.kind then
        (P.set_trace_profiler s2 none, tr, Except.error e)
      else
        (s2, tr, Except.error e)
  | none =>
    let s1 := P.set_trace_profiler s (P.tracer s)
    P.startI s1

/-- The concrete template method `Policy.join` of `scheduling.py`: runs
`_join` and then removes the profiler; if `_join` raises, the exception
propagates before the removal. -/
def policyJoin {σ : Type} (P : PolicyImpl σ) (s : σ) : σ × Trace × Except Exc Unit :=
  match P.joinI s with
  | (s1, tr, Except.ok _) => (P.set_trace_profiler s1 none, tr, Except.ok ())
  | (s1, tr, Except.error e) => (s1, tr, Except.error e)

/-- State of `SinglePolicy`: the configured exceptions and tracer inherited
from `Policy.__init__`, the current value of the `sys.setprofile` slot, and
the batch built by `prepare_callbacks`: one `(callback, filtered kwargs)`
pair per callback. -/
structure SingleState where
  exceptions : Option (List ExcKind)
  tracer : Option String
  profileSlot : Option String
  callbacks : List (Callback × Kwargs)

/-- The loop body of `SinglePolicy._start`: invoke each prepared callback
synchronously in the stored order with its filtered kwargs; the first
exception aborts the loop and propagates.  Returns the invocation trace
and the outcome. -/
def runSeq : List (Callback × Kwargs) → Trace × Except Exc Unit
  | [] => ([], Except.ok ())
  | (cb, kw) :: rest =>
    match cb.body kw with
    | Except.error e => ([(cb.id, kw)], Except.error e)
    | Except.ok _ =>
      let (tr, r) := runSeq rest
      ((cb.id, kw) :: tr, r)

/-- `SinglePolicy` of `scheduling.py` as a `PolicyImpl`: `prepare_callbacks`
stores `(callback, get_callback_kwargs(callback, kwargs))` pairs, `_start`
runs them sequentially, `_join` is a no-op, and `_set_trace_profiler`
writes the `sys.setprofile` slot. -/
def singleImpl : PolicyImpl SingleState where
  exceptions := fun s => s.exceptions
  tracer := fun s => s.tracer
  prepare_callbacks := fun s cbs kwargs =>
    { s with callbacks := cbs.map (fun cb => (cb, get_callback_kwargs cb kwargs)) }
  set_trace_profiler := fun s t => { s with profileSlot := t }
  startI := fun s =>
    let (tr, r) := runSeq s.callbacks
    (s, tr, r)
  joinI := fun s => (s, [], Except.ok ())

/-- One `ExceptionThread` of `scheduling.py`: the target callback, its
filtered kwargs, the exception allow-list handed to the thread, and the
`exc` attribute set by `run` (populated once the thread has executed). -/
structure ThreadUnit where
  cb : Callback
  kwargs : Kwargs
  excs : Option (List ExcKind)
  exc : Option Exc

/-- `ExceptionThread.run`: execute the target; when an allow-list is
configured, an exception whose kind matches it is captured into the `exc`
attribute, any other exception propagates inside the thread only (the
thread dies, `exc` stays `None`); without an allow-list every exception is
likewise confined to the thread. -/
def threadRun (cb : Callback) (kwargs : Kwargs) (excs : Option (List ExcKind)) : Option Exc :=
  match cb.body kwargs with
  | Except.ok _ => none
  | Except.error e =>
    match excs with
    | some allow => if allow.contains e.kind then some e else none
    | none => none

/-- The loop of `ThreadingPolicy._join` over `ExceptionThread.join`: wait
for each thread in list order; after waiting for a thread whose `exc`
attribute is set, re-raise that exception, leaving the remaining threads
unjoined.  Returns the list of thread units actually waited on and the
outcome. -/
def joinThreads : List ThreadUnit → List ThreadUnit × Except Exc Unit
  | [] => ([], Except.ok ())
  | t :: rest =>
    match t.exc with
    | some e => ([t], Except.error e)
    | none =>
      let (js, r) := joinThreads rest
      (t :: js, r)

/-- State of `ThreadingPolicy`: configured exceptions and tracer, the
`threading.setprofile` slot, and the prepared threads. -/
structure ThreadState where
  exceptions : Option (List ExcKind)
  tracer : Option String
  profileSlot : Option String
  threads : List ThreadUnit

/-- `ThreadingPolicy` of `scheduling.py` as a `PolicyImpl`:
`prepare_callbacks` builds one `ExceptionThread` per callback with the
filtered kwargs and the policy's allow-list, `_start` starts every thread
(each runs its callback; outcomes land in the threads' `exc` attributes),
`_join` waits via `joinThreads`, and `_set_trace_profiler` writes the
`threading.setprofile` slot. -/
def threadingImpl : PolicyImpl ThreadState where
  exceptions := fun s => s.exceptions
  tracer := fun s => s.tracer
  prepare_callbacks := fun s cbs kwargs =>
    { s with threads := cbs.map (fun cb =>
        { cb := cb
          kwargs := get_callback_kwargs cb kwargs
          excs := s.exceptions
          exc := none }) }
  set_trace_profiler := fun s t => { s with profileSlot := t }
  startI := fun s =>
    ({ s with threads := s.threads.map (fun t =>
        { t with exc := threadRun t.cb t.kwargs t.excs }) },
     s.threads.map (fun t => (t.cb.id, t.kwargs)),
     Except.ok ())
  joinI := fun s =>
    let (js, r) := joinThreads s.threads
    (s, js.map (fun t => (t.cb.id, t.kwargs)), r)

/-- The registry state of `CallbackList` (`callbacklist.py`) apart from its
scheduler: the callback set (a Python set with identity-based membership,
modelled as a duplicate-free-by-identity list), the allowed parameter
names, and the `_ready` readiness flag.  The scheduler (the policy object)
is threaded separately because `CallbackHandler` shares one policy object
among all its registries. -/
structure CLState where
  callbacks : List Callback
  allowed_parameters : List String
  ready : Bool

/-- Result of one registry operation: the updated registry state, the
updated scheduler state, whether `warnings.warn` was emitted, the trace of
callback invocations performed, and normal return or a propagated
exception. -/
structure StepResult (σ : Type) where
  cl : CLState
  sched : σ
  warned : Bool
  trace : Trace
  result : Except Exc Unit

/-- `CallbackList.run_callbacks`: under the lock, when `_ready` holds,
delegate to `scheduler.prepare_callbacks(list(self.callbacks), **kwds)`
then `scheduler.start()` and only then clear `_ready`; an exception from
`start` propagates before `_ready` is cleared.  When not ready, emit a
`RuntimeWarning` and do nothing. -/
def run_callbacks {σ : Type} (P : PolicyImpl σ) (cl : CLState) (sched : σ)
    (kwds : Kwargs) : StepResult σ :=
  if cl.ready then
    let s1 := P.prepare_callbacks sched cl.callbacks kwds
    match policyStart P s1 with
    | (s2, tr, Except.ok _) => ⟨{ cl with ready := false }, s2, false, tr, Except.ok ()⟩
    | (s2, tr, Except.error e) => ⟨cl, s2, false, tr, Except.error e⟩
  else
    ⟨cl, sched, true, [], Except.ok ()⟩

/-- `CallbackList.join_callbacks`: under the lock, when not `_ready`,
delegate to `scheduler.join()` and only then set `_ready`; an exception
from `join` propagates before `_ready` is set.  When already ready, emit a
`RuntimeWarning` and do nothing. -/
def join_callbacks {σ : Type} (P : PolicyImpl σ) (cl : CLState) (sched : σ) :
    StepResult σ :=
  if cl.ready then
    ⟨cl, sched, true, [], Except.ok ()⟩
  else
    match policyJoin P sched with
    | (s2, tr, Except.ok _) => ⟨{ cl with ready := true }, s2, false, tr, Except.ok ()⟩
    | (s2, tr, Except.error e) => ⟨cl, s2, false, tr, Except.error e⟩

/-- The validation errors raised by `CallbackList.validate_callback` /
`validate_callback_parameters`, carrying exactly the data their message
strings interpolate: the plain `TypeError("Callback must be a callable.")`
carries nothing, the coroutine `TypeError` carries the callback's name, and
the parameter `AssertionError` carries the callback's name and the allowed
and found parameter sets. -/
inductive ValidationError where
  | notCallable
  | coroutine (cbName : String)
  | badParams (cbName : String) (allowed found : List String)
  deriving DecidableEq, Repr

/-- The message string of each validation error, mirroring the literals and
f-strings of `callbacklist.py`. -/
def ValidationError.message : ValidationError → String
  | ValidationError.notCallable => "Callback must be a callable."
  | ValidationError.coroutine n => "Callback `" ++ n ++ "` cannot be a coroutine."
  | ValidationError.badParams n allowed found =>
    "Signature of callback `" ++ n ++ "` is invalid.\n" ++
    "Allowed parameters: " ++ String.intercalate ", " allowed ++ ".\n" ++
    "Found parameters: " ++ String.intercalate ", " found ++ "."

/-- Whether a validation error's message names the offending callback and
both the allowed and the found parameter sets: only the `badParams`
assertion message interpolates all three; the not-callable message
interpolates nothing and the coroutine message only the name. -/
def ValidationError.namesOffenderAndParameterSets : ValidationError → Bool
  | ValidationError.badParams _ _ _ => true
  | _ => false

/-- A Python value handed to `add_callback`: either a callable (with its
introspected data) or a non-callable object with only a printable
representation. -/
inductive PyValue where
  | callable (cb : Callback)
  | nonCallable (reprStr : String)

/-- `CallbackList.validate_callback` (+ `validate_callback_parameters`):
reject non-callables, then coroutine functions, then callables whose
parameter set is not a subset of `allowed`; a callable passing all checks
is returned. -/
def validate_callback (allowed : List String) : PyValue → Except ValidationError Callback
  | PyValue.nonCallable _ => Except.error ValidationError.notCallable
  | PyValue.callable cb =>
    if cb.isCoroutine then
      Except.error (ValidationError.coroutine cb.name)
    else if cb.params.all (fun p => allowed.contains p) then
      Except.ok cb
    else
      Except.error (ValidationError.badParams cb.name allowed cb.params)

/-- `set.add` on the registry's callback set: identity-based insertion, a
no-op when a callback with the same identity is already present. -/
def setInsert (cbs : List Callback) (cb : Callback) : List Callback :=
  if cbs.any (fun c => c.id = cb.id) then cbs else cbs ++ [cb]

/-- `CallbackList.add_callback`: validate under the lock, insert into the
callback set, and return the stored callback; a validation error
propagates and the set is unchanged. -/
def add_callback (cl : CLState) (v : PyValue) : Except ValidationError (Callback × CLState) :=
  (validate_callback cl.allowed_parameters v).map fun cb =>
    (cb, { cl with callbacks := setInsert cl.callbacks cb })

/-- A value produced by a reduction: either a number or the `math.nan`
sentinel.  Captured return values are modelled as rationals (exact
arithmetic standing in for Python numbers). -/
inductive RVal where
  | num (q : Rat)
  | nan
  deriving DecidableEq, Repr

/-- The recorded state of a `Reduction` (`reduction.py`): `returnvars`
maps each traced function name to its most recent captured return value
(a later call with the same name overwrites the earlier snapshot). -/
structure ReductionState where
  returnvars : List (String × Rat)

/-- One concrete reduction strategy: its scalar `reduce` over a list of
captured values. -/
structure ReductionImpl where
  reduce : List Rat → RVal

/-- `Reduction.reduce_return`: `math.nan` when no return values were
recorded, otherwise the scalar reduction of the list of recorded return
values. -/
def reduce_return (R : ReductionImpl) (s : ReductionState) : RVal :=
  if s.returnvars.isEmpty then RVal.nan
  else R.reduce (s.returnvars.map Prod.snd)

/-- `SumReduction.reduce`: `sum(values)`. -/
def SumReduction : ReductionImpl where
  reduce := fun values => RVal.num values.sum

/-- `MeanReduction.reduce`: `sum(values) / len(values)` when the list is
non-empty, `math.nan` otherwise. -/
def MeanReduction : ReductionImpl where
  reduce := fun values =>
    if values.isEmpty then RVal.nan
    else RVal.num (values.sum / (values.length : Rat))

/-- State of a `CallbackHandler` (`callbackhandler.py`): the single policy
object passed to every `CallbackList` it creates (one `σ` shared by all
delegations), and the `delegations` dictionary from action names to
registry states. -/
structure HandlerState (σ : Type) where
  policy : σ
  delegations : List (String × CLState)

/-- Dictionary lookup `self.delegations[action]` (with the `in` check). -/
def lookupDelegation (ds : List (String × CLState)) (action : String) : Option CLState :=
  match ds.find? (fun kv => kv.1 = action) with
  | some kv => some kv.2
  | none => none

/-- Store an updated registry state back under its action name (in Python
the registry object is mutated in place; here the entry is rewritten). -/
def updateDelegation (ds : List (String × CLState)) (action : String) (cl : CLState) :
    List (String × CLState) :=
  ds.map (fun kv => if kv.1 = action then (kv.1, cl) else kv)

/-- `CallbackHandler.add_delegation`: binds `action` to a fresh
`CallbackList` built with the handler's shared policy object, the given
allowed parameters, an empty callback set and `_ready = True`; redeclaring
replaces the registry. -/
def add_delegation {σ : Type} (hs : HandlerState σ) (action : String)
    (allowed : List String) : HandlerState σ :=
  { hs with delegations :=
      if (lookupDelegation hs.delegations action).isSome then
        updateDelegation hs.delegations action ⟨[], allowed, true⟩
      else
        hs.delegations ++ [(action, ⟨[], allowed, true⟩)] }

/-- An error propagating out of `CallbackHandler.execute`: the `ValueError`
for an undeclared action, or an exception raised by the registry's run or
join. -/
inductive ExecError where
  | lookup (msg : String)
  | callback (e : Exc)
  deriving DecidableEq, Repr

/-- Result of `CallbackHandler.execute`: updated handler state, invocation
trace, the warnings emitted by the run and join steps, and the outcome. -/
structure ExecResult (σ : Type) where
  hs : HandlerState σ
  trace : Trace
  warnedRun : Bool
  warnedJoin : Bool
  result : Except ExecError Unit

/-- `CallbackHandler.execute`: raise `ValueError` when the action is not in
`delegations`; otherwise call the registry's `run_callbacks(**kwargs)` and,
when it returns normally, immediately its `join_callbacks()`.  An exception
from either call propagates (after run fails, join is never reached). -/
def execute {σ : Type} (P : PolicyImpl σ) (hs : HandlerState σ) (action : String)
    (kwds : Kwargs) : ExecResult σ :=
  match lookupDelegation hs.delegations action with
  | none =>
    ⟨hs, [], false, false,
     Except.error (ExecError.lookup ("No delegation exists for action " ++ action))⟩
  | some cl =>
    let r1 := run_callbacks P cl hs.policy kwds
    match r1.result with
    | Except.error e =>
      ⟨⟨r1.sched, updateDelegation hs.delegations action r1.cl⟩, r1.trace,
       r1.warned, false, Except.error (ExecError.callback e)⟩
    | Except.ok _ =>
      let r2 := join_callbacks P r1.cl r1.sched
      match r2.result with
      | Except.error e =>
        ⟨⟨r2.sched, updateDelegation hs.delegations action r2.cl⟩,
         r1.trace ++ r2.trace, r1.warned, r2.warned,
         Except.error (ExecError.callback e)⟩
      | Except.ok _ =>
        ⟨⟨r2.sched, updateDelegation hs.delegations action r2.cl⟩,
         r1.trace ++ r2.trace, r1.warned, r2.warned, Except.ok ()⟩

/-! Concrete fixtures used by witnesses and counterexamples. -/

/-- A callback taking parameters `x` and `y` and returning normally. -/
def cbXY : Callback :=
  ⟨1, "cb_xy", ["x", "y"], false, fun _ => Except.ok ()⟩

/-- A parameterless callback that returns normally. -/
def cbCalm : Callback :=
  ⟨2, "cb_calm", [], false, fun _ => Except.ok ()⟩

/-- A parameterless callback raising a `RuntimeError`. -/
def cbBoom : Callback :=
  ⟨3, "cb_boom", [], false, fun _ => Except.error ⟨ExcKind.runtimeError, "boom"⟩⟩

/-- A parameterless callback raising a `ValueError`. -/
def cbVBoom : Callback :=
  ⟨4, "cb_vboom", [], false, fun _ => Except.error ⟨ExcKind.valueError, "vboom"⟩⟩

/-- A sample keyword-argument bag with one key the callback declares and
one it does not. -/
def kwSample : Kwargs := [("x", 5), ("z", 7)]

/-- A registry state that is currently running (`_ready = False`). -/
def clRunning : CLState := ⟨[cbXY], ["x", "y"], false⟩

/-- A registry state that is ready, holding the three sequential-test
callbacks. -/
def clSeq : CLState := ⟨[cbCalm, cbBoom, cbXY], ["x", "y"], true⟩

/-- An idle `SinglePolicy` state with no allow-list and no tracer. -/
def schedIdle : SingleState := ⟨none, none, none, []⟩

/-! Theorems settling the claims. -/

/-- C1: `prepare` passes to each callback exactly the subset of the bag
whose keys are among the callback's formal parameter names: every entry of
the bag whose key the callback declares is kept with its value, and every
entry kept comes from the bag and has a declared key — so nothing with an
undeclared key survives the filter. -/
theorem get_callback_kwargs_exact_subset (cb : Callback) (kwargs : Kwargs) :
    (∀ k v, (k, v) ∈ kwargs → k ∈ cb.params → (k, v) ∈ get_callback_kwargs cb kwargs) ∧
    (∀ k v, (k, v) ∈ get_callback_kwargs cb kwargs → (k, v) ∈ kwargs ∧ k ∈ cb.params) := by
  constructor
  · intro k v hmem hpar
    simp [get_callback_kwargs, List.mem_filter]
    exact ⟨hmem, hpar⟩
  · intro k v hmem
    simp [get_callback_kwargs, List.mem_filter] at hmem
    exact hmem

/-- Witness for C1 at a concrete callback and bag: the declared-and-present
key `x` is passed with its value, and every surviving entry is declared and
from the bag. -/
theorem get_callback_kwargs_exact_subset_witness :
    ("x", (5 : Val)) ∈ get_callback_kwargs cbXY kwSample ∧
    (∀ k v, (k, v) ∈ get_callback_kwargs cbXY kwSample →
      (k, v) ∈ kwSample ∧ k ∈ cbXY.params) :=
  ⟨(get_callback_kwargs_exact_subset cbXY kwSample).1 "x" 5 (by simp [kwSample])
      (by simp [cbXY]),
   (get_callback_kwargs_exact_subset cbXY kwSample).2⟩

/-- C2: on a registry in the Running state (`_ready = False`), `run`
warns, leaves the registry state (callback set included) and the scheduler
untouched, starts nothing (empty trace) and returns normally; on a
registry in the Ready state, `join` warns, changes nothing, does not
block on the scheduler and returns normally. -/
theorem run_join_misuse_warns {σ : Type} (P : PolicyImpl σ) (cl : CLState)
    (sched : σ) (kwds : Kwargs) :
    (cl.ready = false → run_callbacks P cl sched kwds = ⟨cl, sched, true, [], Except.ok ()⟩) ∧
    (cl.ready = true → join_callbacks P cl sched = ⟨cl, sched, true, [], Except.ok ()⟩) := by
  constructor
  · intro h
    simp [run_callbacks, h]
  · intro h
    simp [join_callbacks, h]

/-- Witness for C2: a concrete running registry rejects a second `run`
with a warning and no effect, and a concrete ready registry rejects
`join` likewise. -/
theorem run_join_misuse_warns_witness :
    run_callbacks singleImpl clRunning schedIdle kwSample
      = ⟨clRunning, schedIdle, true, [], Except.ok ()⟩ ∧
    join_callbacks singleImpl clSeq schedIdle
      = ⟨clSeq, schedIdle, true, [], Except.ok ()⟩ :=
  ⟨(run_join_misuse_warns singleImpl clRunning schedIdle kwSample).1 rfl,
   (run_join_misuse_warns singleImpl clSeq schedIdle []).2 rfl⟩

/-- C9: the readiness flag moves only on a normal policy return.  If
`policy.start` raises inside `run`, the registry state is returned
unchanged — still Ready — so a later `run` takes the ready branch (no
warning); if `policy.join` raises inside `join`, the registry stays
Running, so a later `run` is rejected with a warning. -/
theorem ready_flag_unchanged_on_policy_exception {σ : Type} (P : PolicyImpl σ)
    (cl : CLState) (sched sched2 sched3 : σ) (kwds kwds2 kwds3 : Kwargs) :
    (∀ e, cl.ready = true → (run_callbacks P cl sched kwds).result = Except.error e →
      (run_callbacks P cl sched kwds).cl = cl ∧
      (run_callbacks P (run_callbacks P cl sched kwds).cl sched2 kwds2).warned = false) ∧
    (∀ e, cl.ready = false → (join_callbacks P cl sched).result = Except.error e →
      (join_callbacks P cl sched).cl = cl ∧
      (run_callbacks P (join_callbacks P cl sched).cl sched3 kwds3).warned = true) := by
  constructor
  · intro e hready herr
    rcases hps : policyStart P (P.prepare_callbacks sched cl.callbacks kwds) with ⟨s2, tr, r⟩
    cases r with
    | ok u =>
      simp [run_callbacks, hready, hps] at herr
    | error e2 =>
      have hcl : (run_callbacks P cl sched kwds).cl = cl := by
        simp [run_callbacks, hready, hps]
      refine ⟨hcl, ?_⟩
      rw [hcl]
      rcases hps2 : policyStart P (P.prepare_callbacks sched2 cl.callbacks kwds2) with ⟨t2, tr2, r2⟩
      cases r2 <;> simp [run_callbacks, hready, hps2]
  · intro e hready herr
    rcases hpj : policyJoin P sched with ⟨s2, tr, r⟩
    cases r with
    | ok u =>
      simp [join_callbacks, hready, hpj] at herr
    | error e2 =>
      have hcl : (join_callbacks P cl sched).cl = cl := by
        simp [join_callbacks, hready, hpj]
      refine ⟨hcl, ?_⟩
      rw [hcl]
      simp [run_callbacks, hready]

/-- Witness for C9: a ready registry with one sequential callback that
raises stays Ready after the failed `run`, and the next `run` is not
warned. -/
theorem ready_flag_unchanged_on_policy_exception_witness :
    (run_callbacks singleImpl ⟨[cbBoom], [], true⟩ schedIdle []).cl = ⟨[cbBoom], [], true⟩ ∧
    (run_callbacks singleImpl
      (run_callbacks singleImpl ⟨[cbBoom], [], true⟩ schedIdle []).cl schedIdle []).warned = false :=
  (ready_flag_unchanged_on_policy_exception singleImpl ⟨[cbBoom], [], true⟩
      schedIdle schedIdle schedIdle [] [] []).1
    ⟨ExcKind.runtimeError, "boom"⟩ rfl (by simp [run_callbacks, policyStart, singleImpl,
      schedIdle, runSeq, cbBoom])

/-- Every prepared unit of a batch whose callbacks all succeed runs and
returns normally: `runSeq` visits every pair in order. -/
theorem runSeq_all_ok (l : List (Callback × Kwargs))
    (h : ∀ p ∈ l, p.1.body p.2 = Except.ok ()) :
    runSeq l = (l.map (fun p => (p.1.id, p.2)), Except.ok ()) := by
  induction l with
  | nil => rfl
  | cons hd tl ih =>
    obtain ⟨cb, kw⟩ := hd
    have hhd : cb.body kw = Except.ok () := h (cb, kw) (List.mem_cons_self _ _)
    have htl := ih (fun p hp => h p (List.mem_cons_of_mem _ hp))
    simp [runSeq, hhd, htl]

/-- A batch whose first failing unit is `(cb, kw)` runs exactly the units
before it and `(cb, kw)` itself, then propagates that exception; the units
after it never run. -/
theorem runSeq_first_error (pre : List (Callback × Kwargs)) (cb : Callback)
    (kw : Kwargs) (post : List (Callback × Kwargs)) (e : Exc)
    (hpre : ∀ p ∈ pre, p.1.body p.2 = Except.ok ())
    (hcb : cb.body kw = Except.error e) :
    runSeq (pre ++ (cb, kw) :: post)
      = (pre.map (fun p => (p.1.id, p.2)) ++ [(cb.id, kw)], Except.error e) := by
  induction pre with
  | nil => simp [runSeq, hcb]
  | cons hd tl ih =>
    obtain ⟨c, k⟩ := hd
    have hhd : c.body k = Except.ok () := hpre (c, k) (List.mem_cons_self _ _)
    have htl := ih (fun p hp => hpre p (List.mem_cons_of_mem _ hp))
    simp [runSeq, hhd, htl]

/-- The trace and outcome of `Policy.start` on a `SinglePolicy` state are
those of the sequential loop over its prepared batch: the allow-list
handling only touches the profiler slot, never the trace or the propagated
exception. -/
theorem policyStart_single_run (s : SingleState) :
    (policyStart singleImpl s).2 = runSeq s.callbacks := by
  rcases hr : runSeq s.callbacks with ⟨tr, r⟩
  cases hexc : s.exceptions with
  | none => simp [policyStart, singleImpl, hexc, hr]
  | some allow =>
    cases r with
    | ok u => simp [policyStart, singleImpl, hexc, hr]
    | error e =>
      simp [policyStart, singleImpl, hexc, hr]
      split <;> rfl

/-- C3: under the sequential policy a `run` on a ready registry invokes
each prepared callback synchronously in the stored order with its filtered
kwargs; when every callback succeeds all of them run, and when some
callback is the first to raise, exactly the callbacks before it and the
raiser itself run — the rest of the batch is abandoned — and that first
exception propagates synchronously out of `run`. -/
theorem sequential_run_aborts_on_first_exception (cl : CLState) (sched : SingleState)
    (kwds : Kwargs) (hready : cl.ready = true) :
    ((∀ c ∈ cl.callbacks, c.body (get_callback_kwargs c kwds) = Except.ok ()) →
      (run_callbacks singleImpl cl sched kwds).trace
        = cl.callbacks.map (fun c => (c.id, get_callback_kwargs c kwds)) ∧
      (run_callbacks singleImpl cl sched kwds).result = Except.ok ()) ∧
    (∀ pre cb post e, cl.callbacks = pre ++ cb :: post →
      (∀ c ∈ pre, c.body (get_callback_kwargs c kwds) = Except.ok ()) →
      cb.body (get_callback_kwargs cb kwds) = Except.error e →
      (run_callbacks singleImpl cl sched kwds).trace
        = pre.map (fun c => (c.id, get_callback_kwargs c kwds))
            ++ [(cb.id, get_callback_kwargs cb kwds)] ∧
      (run_callbacks singleImpl cl sched kwds).result = Except.error e) := by
  rcases hps : policyStart singleImpl (singleImpl.prepare_callbacks sched cl.callbacks kwds)
    with ⟨s2, tr, r⟩
  have hseq : (tr, r) = runSeq (cl.callbacks.map (fun c => (c, get_callback_kwargs c kwds))) := by
    have h := policyStart_single_run (singleImpl.prepare_callbacks sched cl.callbacks kwds)
    rw [hps] at h
    simpa [singleImpl] using h
  constructor
  · intro hok
    have hall : ∀ p ∈ cl.callbacks.map (fun c => (c, get_callback_kwargs c kwds)),
        p.1.body p.2 = Except.ok () := by
      intro p hp
      rcases List.mem_map.mp hp with ⟨c, hc, rfl⟩
      exact hok c hc
    have hrun := runSeq_all_ok _ hall
    rw [hrun] at hseq
    rcases Prod.mk.injEq .. ▸ hseq with ⟨htr, hr⟩
    subst htr
    subst hr
    simp [run_callbacks, hready, hps, List.map_map, Function.comp]
  · intro pre cb post e hsplit hpre hcb
    have hall : ∀ p ∈ pre.map (fun c => (c, get_callback_kwargs c kwds)),
        p.1.body p.2 = Except.ok () := by
      intro p hp
      rcases List.mem_map.mp hp with ⟨c, hc, rfl⟩
      exact hpre c hc
    have hrun := runSeq_first_error (pre.map (fun c => (c, get_callback_kwargs c kwds)))
      cb (get_callback_kwargs cb kwds) (post.map (fun c => (c, get_callback_kwargs c kwds)))
      e hall hcb
    rw [hsplit] at hseq
    rw [List.map_append, List.map_cons] at hseq
    rw [hrun] at hseq
    rcases Prod.mk.injEq .. ▸ hseq with ⟨htr, hr⟩
    subst htr
    subst hr
    simp [run_callbacks, hready, hps, List.map_map, Function.comp]

/-- Witness for C3 at the stored batch `[cbCalm, cbBoom, cbXY]`: the calm
callback runs, the raising callback runs and its exception propagates from
`run`, and `cbXY` never runs (the trace stops at the raiser). -/
theorem sequential_run_aborts_on_first_exception_witness :
    (run_callbacks singleImpl clSeq schedIdle kwSample).trace
      = [(2, []), (3, [])] ∧
    (run_callbacks singleImpl clSeq schedIdle kwSample).result
      = Except.error ⟨ExcKind.runtimeError, "boom"⟩ :=
  (sequential_run_aborts_on_first_exception clSeq schedIdle kwSample rfl).2
    [cbCalm] cbBoom [cbXY] ⟨ExcKind.runtimeError, "boom"⟩ rfl
    (by intro c hc; simp at hc; subst hc; rfl) rfl

/-- Waiting on a thread list in which no thread captured an exception
joins every thread and returns normally. -/
theorem joinThreads_all_none (ts : List ThreadUnit) (h : ∀ t ∈ ts, t.exc = none) :
    joinThreads ts = (ts, Except.ok ()) := by
  induction ts with
  | nil => rfl
  | cons t rest ih =>
    have ht : t.exc = none := h t (List.mem_cons_self _ _)
    have hrest := ih (fun u hu => h u (List.mem_cons_of_mem _ hu))
    simp [joinThreads, ht, hrest]

/-- Waiting on a thread list whose first captured exception sits on thread
`t` joins exactly the threads before `t` and `t` itself, then re-raises
that exception. -/
theorem joinThreads_first_exc (pre : List ThreadUnit) (t : ThreadUnit)
    (post : List ThreadUnit) (e : Exc) (hpre : ∀ u ∈ pre, u.exc = none)
    (ht : t.exc = some e) :
    joinThreads (pre ++ t :: post) = (pre ++ [t], Except.error e) := by
  induction pre with
  | nil => simp [joinThreads, ht]
  | cons u rest ih =>
    have hu : u.exc = none := hpre u (List.mem_cons_self _ _)
    have hrest := ih (fun w hw => hpre w (List.mem_cons_of_mem _ hw))
    simp [joinThreads, hu, hrest]

/-- C4 (amended): `_join` waits on the spawned threads in wait order only
up to the first thread whose `run` captured an allow-listed exception:
when no thread captured one, every thread is waited on and `join` returns
normally; when some thread is the first with a captured exception, the
threads before it and that thread are waited on, that one exception is
re-raised, and the threads after it are not waited on.  `run` captures an
exception exactly when its kind is in the allow-list; a raised kind outside
the allow-list leaves `exc` unset and so never affects `join`. -/
theorem threading_join_first_allowed_exception :
    (∀ ts : List ThreadUnit, (∀ t ∈ ts, t.exc = none) →
      joinThreads ts = (ts, Except.ok ())) ∧
    (∀ pre (t : ThreadUnit) post e, (∀ u ∈ pre, u.exc = none) → t.exc = some e →
      joinThreads (pre ++ t :: post) = (pre ++ [t], Except.error e)) ∧
    (∀ cb kw allow e, cb.body kw = Except.error e → allow.contains e.kind = true →
      threadRun cb kw (some allow) = some e) ∧
    (∀ cb kw allow e, cb.body kw = Except.error e → allow.contains e.kind = false →
      threadRun cb kw (some allow) = none) := by
  refine ⟨joinThreads_all_none, joinThreads_first_exc, ?_, ?_⟩
  · intro cb kw allow e hbody hkind
    have hmem : e.kind ∈ allow := by simpa using hkind
    simp [threadRun, hbody, hmem]
  · intro cb kw allow e hbody hkind
    have hmem : e.kind ∉ allow := by simpa using hkind
    simp [threadRun, hbody, hmem]

/-- The threads a `ThreadingPolicy` with allow-list `{RuntimeError}` holds
after preparing and starting the batch `[cbBoom, cbCalm]`. -/
def tsC4 : List ThreadUnit :=
  ((policyStart threadingImpl
    (threadingImpl.prepare_callbacks ⟨some [ExcKind.runtimeError], none, none, []⟩
      [cbBoom, cbCalm] [])).1).threads

/-- Counterexample to C4 as stated: two threads are spawned (ids 3 and 2),
the first captures an allow-listed `RuntimeError`, and `_join` re-raises it
after waiting only on that first thread — it does not wait for every
spawned thread to finish, contradicting the claim's first conjunct. -/
theorem threading_join_not_wait_all_counterexample :
    tsC4.map (fun t => t.cb.id) = [3, 2] ∧
    (joinThreads tsC4).2 = Except.error ⟨ExcKind.runtimeError, "boom"⟩ ∧
    (joinThreads tsC4).1.map (fun t => t.cb.id) = [3] ∧
    (joinThreads tsC4).1.map (fun t => t.cb.id) ≠ tsC4.map (fun t => t.cb.id) := by
  refine ⟨rfl, rfl, rfl, ?_⟩
  intro h
  simp [tsC4, threadingImpl, policyStart, threadRun, joinThreads, cbBoom, cbCalm,
    get_callback_kwargs] at h

/-- Witness for the amended C4 at two concrete thread units: the first
carries a captured exception, so `_join` waits on it alone and re-raises,
while a unit list with no captured exceptions is joined in full. -/
theorem threading_join_first_allowed_exception_witness :
    joinThreads [⟨cbBoom, [], some [ExcKind.runtimeError],
        some ⟨ExcKind.runtimeError, "boom"⟩⟩,
      ⟨cbCalm, [], some [ExcKind.runtimeError], none⟩]
      = ([⟨cbBoom, [], some [ExcKind.runtimeError],
          some ⟨ExcKind.runtimeError, "boom"⟩⟩],
         Except.error ⟨ExcKind.runtimeError, "boom"⟩) :=
  threading_join_first_allowed_exception.2.1 []
    ⟨cbBoom, [], some [ExcKind.runtimeError], some ⟨ExcKind.runtimeError, "boom"⟩⟩
    [⟨cbCalm, [], some [ExcKind.runtimeError], none⟩]
    ⟨ExcKind.runtimeError, "boom"⟩ (by intro u hu; simp at hu) rfl

/-- C5 (amended): `add` fails on a non-callable with the bare
`TypeError` naming nothing, fails on a coroutine function with a
`TypeError` naming only the callback, fails on a parameter violation with
the `AssertionError` naming the offending callback and the allowed and
found parameter sets, and otherwise succeeds, stores the callback in the
set and returns it. -/
theorem add_callback_validation (cl : CLState) :
    (∀ r, add_callback cl (PyValue.nonCallable r)
      = Except.error ValidationError.notCallable) ∧
    (∀ cb : Callback, cb.isCoroutine = true →
      add_callback cl (PyValue.callable cb)
        = Except.error (ValidationError.coroutine cb.name)) ∧
    (∀ cb : Callback, cb.isCoroutine = false →
      cb.params.all (fun p => cl.allowed_parameters.contains p) = false →
      add_callback cl (PyValue.callable cb)
        = Except.error (ValidationError.badParams cb.name cl.allowed_parameters cb.params) ∧
      (ValidationError.badParams cb.name cl.allowed_parameters
        cb.params).namesOffenderAndParameterSets = true) ∧
    (∀ cb : Callback, cb.isCoroutine = false →
      cb.params.all (fun p => cl.allowed_parameters.contains p) = true →
      add_callback cl (PyValue.callable cb)
        = Except.ok (cb, { cl with callbacks := setInsert cl.callbacks cb })) := by
  refine ⟨?_, ?_, ?_, ?_⟩
  · intro r
    rfl
  · intro cb hco
    simp [add_callback, validate_callback, hco, Except.map]
  · intro cb hco hsub
    refine ⟨?_, rfl⟩
    have hnot : ¬ ∀ p ∈ cb.params, p ∈ cl.allowed_parameters := by simpa using hsub
    simp [add_callback, validate_callback, hco, hnot, Except.map]
  · intro cb hco hsub
    have hv : validate_callback cl.allowed_parameters (PyValue.callable cb)
        = Except.ok cb := by
      rw [show validate_callback cl.allowed_parameters (PyValue.callable cb)
          = if cb.isCoroutine = true then
              Except.error (ValidationError.coroutine cb.name)
            else if (cb.params.all fun p => cl.allowed_parameters.contains p) = true then
              Except.ok cb
            else
              Except.error (ValidationError.badParams cb.name cl.allowed_parameters cb.params)
        from rfl]
      rw [if_neg (by simp [hco]), if_pos hsub]
    unfold add_callback
    rw [hv]
    rfl

/-- Counterexample to C5 as stated: adding the non-callable value `42`
fails with the plain "Callback must be a callable." `TypeError`, whose
message names neither the offending callback nor the allowed or found
parameter sets. -/
theorem add_callback_naming_counterexample :
    add_callback clSeq (PyValue.nonCallable "42")
      = Except.error ValidationError.notCallable ∧
    ValidationError.notCallable.namesOffenderAndParameterSets = false ∧
    ValidationError.notCallable.message = "Callback must be a callable." :=
  ⟨rfl, rfl, rfl⟩

/-- Witness for the amended C5: `cbXY` (parameters `x`, `y`, allowed
`x`, `y`) is accepted into an empty registry and returned, and a callback
with a parameter outside the allowed set is rejected with the error naming
callback and both sets. -/
theorem add_callback_validation_witness :
    add_callback ⟨[], ["x", "y"], true⟩ (PyValue.callable cbXY)
      = Except.ok (cbXY, ⟨[cbXY], ["x", "y"], true⟩) ∧
    add_callback ⟨[], ["y"], true⟩ (PyValue.callable cbXY)
      = Except.error (ValidationError.badParams "cb_xy" ["y"] ["x", "y"]) :=
  ⟨(add_callback_validation ⟨[], ["x", "y"], true⟩).2.2.2 cbXY rfl rfl,
   ((add_callback_validation ⟨[], ["y"], true⟩).2.2.1 cbXY rfl rfl).1⟩

/-- C6 (amended): with an exception-kind allow-list configured on a
sequential policy, `start` installs the tracing hook before dispatching the
batch (by definition of `policyStart` the profiler is set to the tracer
before `_start` runs); on the exit path where an allow-listed exception
propagates the hook is removed before re-raising; on a normal exit the
hook remains installed (its removal is `join`'s job); and on the exit path
where a non-allow-listed exception propagates the hook also remains
installed. -/
theorem start_profiler_exit_paths (s : SingleState) (allow : List ExcKind)
    (hexc : s.exceptions = some allow) :
    ((singleImpl.set_trace_profiler s s.tracer).profileSlot = s.tracer) ∧
    ((runSeq s.callbacks).2 = Except.ok () →
      (policyStart singleImpl s).1.profileSlot = s.tracer ∧
      (policyStart singleImpl s).2.2 = Except.ok ()) ∧
    (∀ e, (runSeq s.callbacks).2 = Except.error e → allow.contains e.kind = true →
      (policyStart singleImpl s).1.profileSlot = none ∧
      (policyStart singleImpl s).2.2 = Except.error e) ∧
    (∀ e, (runSeq s.callbacks).2 = Except.error e → allow.contains e.kind = false →
      (policyStart singleImpl s).1.profileSlot = s.tracer ∧
      (policyStart singleImpl s).2.2 = Except.error e) := by
  rcases hr : runSeq s.callbacks with ⟨tr, r⟩
  refine ⟨rfl, ?_, ?_, ?_⟩
  · intro hok
    simp at hok
    subst hok
    simp [policyStart, singleImpl, hexc, hr]
  · intro e herr hkind
    simp at herr
    subst herr
    have hmem : e.kind ∈ allow := by simpa using hkind
    simp [policyStart, singleImpl, hexc, hr, hmem]
  · intro e herr hkind
    simp at herr
    subst herr
    have hmem : e.kind ∉ allow := by simpa using hkind
    simp [policyStart, singleImpl, hexc, hr, hmem]

/-- A sequential policy state with allow-list `{RuntimeError}`, a
configured tracer, and a prepared unit raising a `ValueError` (a kind
outside the allow-list). -/
def schedC6 : SingleState :=
  ⟨some [ExcKind.runtimeError], some "reduction-tracer", none, [(cbVBoom, [])]⟩

/-- Counterexample to C6 as stated: with the allow-list configured,
`start` raises the non-allow-listed `ValueError` and exits with the
tracing hook still installed — the hook is not removed on this exit path
of `start`, contradicting the claim that it is removed on every exit path
and never left installed after `start` raises. -/
theorem start_profiler_left_installed_counterexample :
    (policyStart singleImpl schedC6).2.2 = Except.error ⟨ExcKind.valueError, "vboom"⟩ ∧
    (policyStart singleImpl schedC6).1.profileSlot = some "reduction-tracer" ∧
    (policyStart singleImpl schedC6).1.profileSlot ≠ none := by
  refine ⟨rfl, rfl, ?_⟩
  intro h
  simp [policyStart, singleImpl, schedC6, runSeq, cbVBoom] at h

/-- Witness for the amended C6: on a state with the allow-list configured
and a unit raising an allow-listed `RuntimeError`, `start` removes the
hook before re-raising; on a state whose unit succeeds, the hook stays
installed after `start` returns. -/
theorem start_profiler_exit_paths_witness :
    (policyStart singleImpl
      ⟨some [ExcKind.runtimeError], some "reduction-tracer", none, [(cbBoom, [])]⟩).1.profileSlot
      = none ∧
    (policyStart singleImpl
      ⟨some [ExcKind.runtimeError], some "reduction-tracer", none, [(cbCalm, [])]⟩).1.profileSlot
      = some "reduction-tracer" :=
  ⟨((start_profiler_exit_paths
      ⟨some [ExcKind.runtimeError], some "reduction-tracer", none, [(cbBoom, [])]⟩
      [ExcKind.runtimeError] rfl).2.2.1 ⟨ExcKind.runtimeError, "boom"⟩ rfl rfl).1,
   ((start_profiler_exit_paths
      ⟨some [ExcKind.runtimeError], some "reduction-tracer", none, [(cbCalm, [])]⟩
      [ExcKind.runtimeError] rfl).2.1 rfl).1⟩

/-- C7: `reduceReturn` yields the not-a-number sentinel when no return
values were recorded and otherwise applies the strategy's scalar reduction
to the list of recorded return values; in particular the Sum reduction
over recorded values 1, 2, 3 yields 6 and the Mean reduction over zero
recorded calls yields the sentinel rather than raising. -/
theorem reduce_return_spec (R : ReductionImpl) (s : ReductionState) :
    (s.returnvars = [] → reduce_return R s = RVal.nan) ∧
    (s.returnvars ≠ [] →
      reduce_return R s = R.reduce (s.returnvars.map Prod.snd)) ∧
    reduce_return SumReduction ⟨[("a", 1), ("b", 2), ("c", 3)]⟩ = RVal.num 6 ∧
    reduce_return MeanReduction ⟨[]⟩ = RVal.nan := by
  refine ⟨?_, ?_, ?_, rfl⟩
  · intro h
    simp [reduce_return, h]
  · intro h
    simp [reduce_return, h]
  · show RVal.num (1 + (2 + (3 + 0))) = RVal.num 6
    norm_num

/-- Witness for C7: the sentinel case of `reduceReturn` applied at the Sum
strategy and an empty recorded state. -/
theorem reduce_return_spec_witness :
    reduce_return SumReduction ⟨[]⟩ = RVal.nan :=
  (reduce_return_spec SumReduction ⟨[]⟩).1 rfl

/-- Updating the registry stored under a declared action makes later
lookups of that action return the updated registry. -/
theorem lookupDelegation_update (ds : List (String × CLState)) (a : String)
    (cl cl0 : CLState) (h : lookupDelegation ds a = some cl0) :
    lookupDelegation (updateDelegation ds a cl) a = some cl := by
  induction ds with
  | nil => simp [lookupDelegation] at h
  | cons kv rest ih =>
    by_cases hk : kv.1 = a
    · simp [lookupDelegation, updateDelegation, hk]
    · have hup : updateDelegation (kv :: rest) a cl = kv :: updateDelegation rest a cl := by
        simp [updateDelegation, hk]
      have h1 : lookupDelegation (kv :: rest) a = lookupDelegation rest a := by
        unfold lookupDelegation
        rw [List.find?_cons_of_neg _ (by simpa using hk)]
      have h2 : lookupDelegation (kv :: updateDelegation rest a cl) a
          = lookupDelegation (updateDelegation rest a cl) a := by
        unfold lookupDelegation
        rw [List.find?_cons_of_neg _ (by simpa using hk)]
      rw [hup, h2]
      exact ih (h1 ▸ h)

/-- A `join_callbacks` call that returns normally leaves the registry in
the Ready state (either it joined and set the flag, or the registry was
already ready and the call warned). -/
theorem join_callbacks_ok_ready {σ : Type} (P : PolicyImpl σ) (cl : CLState) (s : σ)
    (h : (join_callbacks P cl s).result = Except.ok ()) :
    (join_callbacks P cl s).cl.ready = true := by
  by_cases hr : cl.ready
  · simp [join_callbacks, hr]
  · rcases hpj : policyJoin P s with ⟨s2, tr, r⟩
    cases r with
    | ok u => simp [join_callbacks, hr, hpj]
    | error e => simp [join_callbacks, hr, hpj] at h

/-- C8: `execute` on an undeclared action fails with the lookup error and
changes nothing; on a declared action it calls the registry's `run` with
the arguments and, exactly when `run` returns normally, immediately the
registry's `join`, propagating either call's exception; and whenever
`execute` returns normally the action's registry has been joined back to
the Ready state — the batch completed before `execute` returned, whatever
the policy. -/
theorem handler_execute_run_then_join {σ : Type} (P : PolicyImpl σ)
    (hs : HandlerState σ) (action : String) (kwds : Kwargs) :
    (lookupDelegation hs.delegations action = none →
      execute P hs action kwds
        = ⟨hs, [], false, false,
           Except.error (ExecError.lookup ("No delegation exists for action " ++ action))⟩) ∧
    (∀ cl, lookupDelegation hs.delegations action = some cl →
      (∀ e, (run_callbacks P cl hs.policy kwds).result = Except.error e →
        (execute P hs action kwds).result = Except.error (ExecError.callback e) ∧
        (execute P hs action kwds).trace = (run_callbacks P cl hs.policy kwds).trace) ∧
      ((run_callbacks P cl hs.policy kwds).result = Except.ok () →
        (execute P hs action kwds).trace
          = (run_callbacks P cl hs.policy kwds).trace
              ++ (join_callbacks P (run_callbacks P cl hs.policy kwds).cl
                    (run_callbacks P cl hs.policy kwds).sched).trace ∧
        (execute P hs action kwds).result
          = ((join_callbacks P (run_callbacks P cl hs.policy kwds).cl
                (run_callbacks P cl hs.policy kwds).sched).result).mapError
              ExecError.callback)) ∧
    ((execute P hs action kwds).result = Except.ok () →
      ∃ cl2, lookupDelegation (execute P hs action kwds).hs.delegations action = some cl2 ∧
        cl2.ready = true) := by
  refine ⟨?_, ?_, ?_⟩
  · intro h
    simp [execute, h]
  · intro cl hcl
    constructor
    · intro e herr
      simp [execute, hcl, herr]
    · intro hok
      rcases hj : (join_callbacks P (run_callbacks P cl hs.policy kwds).cl
          (run_callbacks P cl hs.policy kwds).sched).result with e2 | u2
      · simp [execute, hcl, hok, hj, Except.mapError]
      · simp [execute, hcl, hok, hj, Except.mapError]
  · intro hres
    rcases hlk : lookupDelegation hs.delegations action with _ | cl
    · simp [execute, hlk] at hres
    · rcases hrun : (run_callbacks P cl hs.policy kwds).result with e | u
      · simp [execute, hlk, hrun] at hres
      · rcases hj : (join_callbacks P (run_callbacks P cl hs.policy kwds).cl
            (run_callbacks P cl hs.policy kwds).sched).result with e2 | u2
        · simp [execute, hlk, hrun, hj] at hres
        · refine ⟨(join_callbacks P (run_callbacks P cl hs.policy kwds).cl
              (run_callbacks P cl hs.policy kwds).sched).cl, ?_, ?_⟩
          · have hhs : (execute P hs action kwds).hs.delegations
                = updateDelegation hs.delegations action
                    (join_callbacks P (run_callbacks P cl hs.policy kwds).cl
                      (run_callbacks P cl hs.policy kwds).sched).cl := by
              simp [execute, hlk, hrun, hj]
            rw [hhs]
            exact lookupDelegation_update hs.delegations action _ cl hlk
          · exact join_callbacks_ok_ready P _ _ (by rw [hj])

/-- Witness for C8: executing an undeclared action on a handler with an
empty delegation dictionary fails with the lookup error and leaves the
handler unchanged. -/
theorem handler_execute_run_then_join_witness :
    execute singleImpl ⟨schedIdle, []⟩ "undeclared_action" []
      = ⟨⟨schedIdle, []⟩, [], false, false,
         Except.error (ExecError.lookup
           "No delegation exists for action undeclared_action")⟩ :=
  (handler_execute_run_then_join singleImpl ⟨schedIdle, []⟩ "undeclared_action" []).1 rfl

/-- `Policy.start` on a `ThreadingPolicy` state always returns normally:
it installs the profiler, starts every prepared thread (each computes its
`exc` attribute), and nothing propagates to the caller. -/
theorem policyStart_threading (s : ThreadState) :
    policyStart threadingImpl s
      = ({ s with profileSlot := s.tracer
                  threads := s.threads.map (fun t =>
                    { t with exc := threadRun t.cb t.kwargs t.excs }) },
         s.threads.map (fun t => (t.cb.id, t.kwargs)),
         Except.ok ()) := by
  cases hexc : s.exceptions <;> simp [policyStart, threadingImpl, hexc]

/-- `run_callbacks` on a ready registry under the threading policy:
prepares one thread per registered callback with its filtered kwargs and
the shared policy object's allow-list, starts them all (each computing its
`exc` attribute), clears the readiness flag and returns normally. -/
theorem run_callbacks_threading (cl : CLState) (sched : ThreadState)
    (kwds : Kwargs) (h : cl.ready = true) :
    run_callbacks threadingImpl cl sched kwds
      = ⟨{ cl with ready := false },
         { sched with profileSlot := sched.tracer
                      threads := cl.callbacks.map (fun c =>
                        { cb := c
                          kwargs := get_callback_kwargs c kwds
                          excs := sched.exceptions
                          exc := threadRun c (get_callback_kwargs c kwds)
                                   sched.exceptions }) },
         false,
         cl.callbacks.map (fun c => (c.id, get_callback_kwargs c kwds)),
         Except.ok ()⟩ := by
  simp only [run_callbacks, h, if_true, policyStart_threading]
  simp [threadingImpl, List.map_map, Function.comp]

/-- C10: all registries of one directory share the directory's single
policy object (`add_delegation` passes `self.policy` to every
`CallbackList` it creates, and the `Policy` default argument is built once,
so even separately constructed registries default to one shared
`ThreadingPolicy`) — modelled by the one scheduler state threaded through
every registry operation.  Consequently a `run` on a second registry while
a first is running overwrites `self.threads` in the shared policy: after
`run` on registry A and then `run` on registry B, the shared batch holds
exactly B's units, A is still in the Running state, and A's `join` waits
on (and joins) B's units — returning normally — instead of A's own. -/
theorem shared_policy_second_run_replaces_batch (p0 : ThreadState)
    (clA clB : CLState) (kwds1 kwds2 : Kwargs)
    (hA : clA.ready = true) (hB : clB.ready = true)
    (hBok : ∀ c ∈ clB.callbacks, c.body (get_callback_kwargs c kwds2) = Except.ok ()) :
    (run_callbacks threadingImpl clB
        (run_callbacks threadingImpl clA p0 kwds1).sched kwds2).sched.threads.map
        (fun t => (t.cb.id, t.kwargs))
      = clB.callbacks.map (fun c => (c.id, get_callback_kwargs c kwds2)) ∧
    (run_callbacks threadingImpl clA p0 kwds1).cl.ready = false ∧
    (join_callbacks threadingImpl (run_callbacks threadingImpl clA p0 kwds1).cl
        (run_callbacks threadingImpl clB
          (run_callbacks threadingImpl clA p0 kwds1).sched kwds2).sched).trace
      = clB.callbacks.map (fun c => (c.id, get_callback_kwargs c kwds2)) ∧
    (join_callbacks threadingImpl (run_callbacks threadingImpl clA p0 kwds1).cl
        (run_callbacks threadingImpl clB
          (run_callbacks threadingImpl clA p0 kwds1).sched kwds2).sched).result
      = Except.ok () := by
  have hAc : (run_callbacks threadingImpl clA p0 kwds1).cl = { clA with ready := false } := by
    rw [run_callbacks_threading clA p0 kwds1 hA]
  have hAs : (run_callbacks threadingImpl clA p0 kwds1).sched
      = { p0 with profileSlot := p0.tracer
                  threads := clA.callbacks.map (fun c =>
                    { cb := c
                      kwargs := get_callback_kwargs c kwds1
                      excs := p0.exceptions
                      exc := threadRun c (get_callback_kwargs c kwds1) p0.exceptions }) } := by
    rw [run_callbacks_threading clA p0 kwds1 hA]
  have hBs : (run_callbacks threadingImpl clB
        (run_callbacks threadingImpl clA p0 kwds1).sched kwds2).sched
      = { p0 with profileSlot := p0.tracer
                  threads := clB.callbacks.map (fun c =>
                    { cb := c
                      kwargs := get_callback_kwargs c kwds2
                      excs := p0.exceptions
                      exc := threadRun c (get_callback_kwargs c kwds2) p0.exceptions }) } := by
    rw [hAs, run_callbacks_threading clB _ kwds2 hB]
  have hnone : ∀ t ∈ clB.callbacks.map (fun c =>
      ({ cb := c
         kwargs := get_callback_kwargs c kwds2
         excs := p0.exceptions
         exc := threadRun c (get_callback_kwargs c kwds2) p0.exceptions } : ThreadUnit)),
      t.exc = none := by
    intro t ht
    rcases List.mem_map.mp ht with ⟨c, hc, rfl⟩
    simp [threadRun, hBok c hc]
  have hjt := joinThreads_all_none _ hnone
  refine ⟨?_, ?_, ?_, ?_⟩
  · rw [hBs]
    simp [List.map_map, Function.comp]
  · rw [hAc]
  · rw [hAc, hBs]
    simp [join_callbacks, policyJoin, threadingImpl, hjt, List.map_map, Function.comp]
  · rw [hAc, hBs]
    simp [join_callbacks, policyJoin, threadingImpl, hjt]

/-- The shared default `ThreadingPolicy` state used by the C10 witness. -/
def p0Shared : ThreadState := ⟨some [ExcKind.runtimeError], none, none, []⟩

/-- Witness for C10: registry A holds `cbBoom` (id 3), registry B holds
`cbCalm` (id 2); after `run` on A and then `run` on B against the shared
policy object, A's `join` waits on B's single unit (id 2) and returns
normally. -/
theorem shared_policy_second_run_replaces_batch_witness :
    (join_callbacks threadingImpl
        (run_callbacks threadingImpl ⟨[cbBoom], [], true⟩ p0Shared []).cl
        (run_callbacks threadingImpl ⟨[cbCalm], [], true⟩
          (run_callbacks threadingImpl ⟨[cbBoom], [], true⟩ p0Shared []).sched
          []).sched).trace
      = [(2, [])] ∧
    (join_callbacks threadingImpl
        (run_callbacks threadingImpl ⟨[cbBoom], [], true⟩ p0Shared []).cl
        (run_callbacks threadingImpl ⟨[cbCalm], [], true⟩
          (run_callbacks threadingImpl ⟨[cbBoom], [], true⟩ p0Shared []).sched
          []).sched).result
      = Except.ok () :=
  ⟨(shared_policy_second_run_replaces_batch p0Shared ⟨[cbBoom], [], true⟩
      ⟨[cbCalm], [], true⟩ [] [] rfl rfl
      (by intro c hc; simp at hc; subst hc; rfl)).2.2.1,
   (shared_policy_second_run_replaces_batch p0Shared ⟨[cbBoom], [], true⟩
      ⟨[cbCalm], [], true⟩ [] [] rfl rfl
      (by intro c hc; simp at hc; subst hc; rfl)).2.2.2⟩

end CallPyBack
